import Mathlib

/-!
Shallow embedding of the blender-mcp-server command-dispatch protocol.

Source files embedded here:
* `addon/__init__.py` — the in-host TCP bridge: `CommandHandler.handle`,
  `CommandHandler._validate_filepath`, the scene/export handlers,
  `BlenderMCPServer._handle_client` (line loop) and
  `BlenderMCPServer._process_request`.
* `src/blender_mcp_server/server.py` — the external client:
  `BlenderConnection.send_command`.

Conventions: Python dicts of JSON values become association lists over a
`Json` inductive; Python exceptions become `Except String`; the process-wide
mutable security globals (`SAFE_MODE`, `ALLOWED_PATHS`) become an explicit
`SecConfig` value threaded through the path check; external host effects
(`bpy.ops.ed.undo_push`, socket reads) become explicit outcome parameters.
-/

/-- A JSON value, as produced by `json.loads`. Python `None` is `Json.null`. -/
inductive Json where
  | null
  | bool (b : Bool)
  | num (q : Rat)
  | str (s : String)
  | arr (elems : List Json)
  | obj (fields : List (String × Json))

/-- A decoded parameter bag (a JSON object), as passed to handlers. -/
abbrev Params := List (String × Json)

/-- Python `d.get(k)` on a decoded JSON object: first binding for the key, if any. -/
def Params.get (params : Params) (k : String) : Option Json :=
  (params.find? (fun kv => kv.1 == k)).map (fun kv => kv.2)

/-- Python `d[k]` / `d.get(k)` specialised to string-valued parameters (the handlers
embedded below only ever call string methods on these values). -/
def getStr (params : Params) (k : String) : Option String :=
  match Params.get params k with
  | some (Json.str s) => some s
  | _ => none

/-! ### Python string primitives used by the source -/

/-- Python `s.startswith(pre)`. -/
def pyStartsWith (s pre : String) : Bool := pre.data.isPrefixOf s.data

/-- Python `s.endswith(suf)`. -/
def pyEndsWith (s suf : String) : Bool := suf.data.isSuffixOf s.data

/-- A single-quote character, used verbatim in the source's error messages. -/
def squote : String := String.singleton (Char.ofNat 39)

/-- Join strings with a separator (structural, kernel-reducible). -/
def joinWith (sep : String) : List String → String
  | [] => ""
  | [x] => x
  | x :: xs => x ++ sep ++ joinWith sep xs

/-- Python `repr` of a list of strings, as interpolated into the
`File access denied` message by `_validate_filepath`. -/
def pyListRepr (xs : List String) : String :=
  "[" ++ joinWith ", " (xs.map (fun s => squote ++ s ++ squote)) ++ "]"

/-! ### POSIX path primitives (`os.path`) -/

/-- Split a character list at every occurrence of a separator character
(structural, kernel-reducible; matches Python `str.split(sep)`). -/
def splitChar (sep : Char) : List Char → List (List Char)
  | [] => [[]]
  | x :: xs =>
      match splitChar sep xs with
      | [] => [[]]
      | r :: rs => if x == sep then [] :: r :: rs else (x :: r) :: rs

/-- Split a path string on `/`. -/
def splitSlash (p : String) : List String :=
  (splitChar (Char.ofNat 47) p.data).map String.mk

/-- Resolve `.`/`..` components: `acc` carries the already-normalised
components in reverse. `..` at the root stays at the root. -/
def normComps (acc : List String) : List String → List String
  | [] => acc.reverse
  | c :: rest =>
      if c == ".." then normComps (acc.drop 1) rest
      else normComps (c :: acc) rest

/-- Model of `os.path.abspath`: make the path absolute against the working directory
and normalise `.`/`..` components (POSIX separators). -/
def abspath (cwd p : String) : String :=
  let full := if pyStartsWith p "/" then p else cwd ++ "/" ++ p
  let comps := (splitSlash full).filter (fun c => !(c == "" || c == "."))
  "/" ++ joinWith "/" (normComps [] comps)

/-- Model of `os.path.dirname`: everything before the final separator. -/
def dirname (p : String) : String :=
  let d := joinWith "/" ((splitSlash p).dropLast)
  if d == "" && pyStartsWith p "/" then "/" else d

/-- Model of `bpy.path.abspath`: a Blender path starting with `//` is relative to the
directory of the open `.blend` file; any other path is returned unchanged. -/
def bpyPathAbspath (blendDir p : String) : String :=
  if pyStartsWith p "//" then blendDir ++ "/" ++ String.mk (p.data.drop 2) else p

/-! ### Security configuration (`SAFE_MODE`, `ALLOWED_PATHS`) -/

/-- The process-wide security globals of `addon/__init__.py`:
`SAFE_MODE : bool` and `ALLOWED_PATHS : list[str]` (append-only). -/
structure SecConfig where
  safeMode : Bool
  allowedPaths : List String
deriving Repr, DecidableEq

/-- The host-side environment read by the path check: `bpy.data.filepath`
(empty string when no `.blend` file is open) and `os.getcwd()`. -/
structure Env where
  blendFilepath : String
  cwd : String

/-- The expression `os.path.dirname(bpy.data.filepath) if bpy.data.filepath else os.getcwd()`
— the default root seeded into an empty `ALLOWED_PATHS`. -/
def blendDirOf (env : Env) : String :=
  if env.blendFilepath == "" then env.cwd else dirname env.blendFilepath

/-- The `PermissionError` message raised by `_validate_filepath`. -/
def deniedMsg (filepath : String) (allowed : List String) : String :=
  "File access denied: " ++ squote ++ filepath ++ squote ++
    " is outside allowed directories. Allowed: " ++ pyListRepr allowed

/-- Model of `CommandHandler._validate_filepath`, with the mutable globals made an
explicit state. Mirrors the source line by line: pass everything when safe
mode is off; otherwise absolutise the path, lazily seed an empty
`ALLOWED_PATHS` with the blend-file directory (or cwd), then accept iff the
absolute path string-prefix-matches some allowed root. -/
def validate_filepath (env : Env) (st : SecConfig) (filepath : String) :
    Except String String × SecConfig :=
  if !st.safeMode then (Except.ok filepath, st)
  else
    let absPath := abspath env.cwd (bpyPathAbspath (blendDirOf env) filepath)
    let st' :=
      if st.allowedPaths.isEmpty then
        { st with allowedPaths := st.allowedPaths ++ [blendDirOf env] }
      else st
    if st'.allowedPaths.any (fun allowed => pyStartsWith absPath (abspath env.cwd allowed)) then
      (Except.ok filepath, st')
    else
      (Except.error (deniedMsg filepath st'.allowedPaths), st')

/-! ### Handler registry and dispatch (`CommandHandler.handle`) -/

/-- The outcome of one handler invocation: a JSON-representable result or a
raised exception's message. -/
abbrev HandlerFn := Params → Except String Json

/-- Python `self._handlers.get(command)`: resolve a command name in the registry. -/
def lookupHandler (handlers : List (String × HandlerFn)) (command : String) :
    Option HandlerFn :=
  (handlers.find? (fun kv => kv.1 == command)).map (fun kv => kv.2)

/-- The command names registered by `CommandHandler._register_builtins`. -/
def builtinCommandNames : List String :=
  ["scene.get_info", "scene.list_objects", "object.get_transform",
   "object.get_hierarchy", "material.list", "object.create_mesh",
   "object.delete", "object.translate", "object.rotate", "object.scale",
   "object.duplicate", "material.create", "material.assign",
   "material.set_color", "material.set_texture", "render.still",
   "render.animation", "export.gltf", "export.obj", "export.fbx",
   "history.undo", "history.redo"]

/-- The `PermissionError` message raised by the whitelist check. -/
def permissionDeniedMsg (command : String) : String :=
  "Command " ++ squote ++ command ++ squote ++ " is not in the tool whitelist"

/-- The `ValueError` message raised for an unregistered command. -/
def unknownCommandMsg (command : String) : String :=
  "Unknown command: " ++ command

/-- Model of `CommandHandler.handle`: the whitelist check runs first (`TOOL_WHITELIST`
is `none` when no whitelist is configured); only then is the handler resolved
from the registry, failing with the unknown-command error when absent. -/
def handle (toolWhitelist : Option (List String))
    (handlers : List (String × HandlerFn)) (command : String)
    (params : Params) : Except String Json :=
  if (match toolWhitelist with
      | some wl => !wl.contains command
      | none => false) then
    Except.error (permissionDeniedMsg command)
  else
    match lookupHandler handlers command with
    | none => Except.error (unknownCommandMsg command)
    | some h => h params

/-! ### The request/response envelope (`BlenderMCPServer._process_request`) -/

/-- A decoded request object. `id` is `Json.null` when the field is absent or
null (Python's `request.get("id")` yields `None` in both cases); `command`
and `params` are `none` when the field is absent. -/
structure Request where
  id : Json
  command : Option String
  params : Option Params

/-- A response envelope. `result` is present iff `success`; `error` is
present iff not `success`. -/
structure Response where
  id : Json
  success : Bool
  result : Option Json
  error : Option String

/-- The set `MUTATION_COMMANDS`: the fixed set of commands that trigger an undo push
before dispatch. -/
def MUTATION_COMMANDS : List String :=
  ["object.create_mesh", "object.delete", "object.translate", "object.rotate",
   "object.scale", "object.duplicate", "material.create", "material.assign",
   "material.set_color", "material.set_texture"]

/-- The `try`/`except` envelope of `_process_request`: a normal return is
wrapped as a success response, a raised exception as an error response; both
carry the request's id. -/
def responseOf (reqId : Json) (outcome : Except String Json) : Response :=
  match outcome with
  | Except.ok result =>
      { id := reqId, success := true, result := some result, error := none }
  | Except.error e =>
      { id := reqId, success := false, result := none, error := some e }

/-- Model of `BlenderMCPServer._process_request`. Here `undoPush` is the outcome of the
host-side `bpy.ops.ed.undo_push` call (an external effect); it is requested
only for commands in `MUTATION_COMMANDS`, inside the same `try` block as the
handler invocation, so its exception is caught by the same `except` clause. -/
def process_request (toolWhitelist : Option (List String))
    (handlers : List (String × HandlerFn)) (undoPush : Except String Unit)
    (request : Request) : Response :=
  let reqId := request.id
  let command := request.command.getD ""
  let params := request.params.getD []
  responseOf reqId
    (match (if MUTATION_COMMANDS.contains command then undoPush
            else Except.ok ()) with
     | Except.error e => Except.error e
     | Except.ok _ => handle toolWhitelist handlers command params)

/-! ### Frame codec and per-client loop (`BlenderMCPServer._handle_client`) -/

/-- The error text produced for an undecodable line (`f"Invalid JSON: {e}"`). -/
def invalidJsonMsg (e : String) : String := "Invalid JSON: " ++ e

/-- The response sent for an undecodable line: id null, success false. -/
def decodeErrorResponse (e : String) : Response :=
  { id := Json.null, success := false, result := none,
    error := some (invalidJsonMsg e) }

/-- Python `s.strip()`. -/
def pyStrip (s : String) : String :=
  String.mk (((s.data.dropWhile Char.isWhitespace).reverse.dropWhile
    Char.isWhitespace).reverse)

/-- The body of the inner loop of `_handle_client` for one complete line:
blank lines produce no response; a line that decodes is processed by
`_process_request`; a line that fails to decode produces the decode-error
response. `decode` is `json.loads` restricted to request objects, an
external dependency taken as a parameter. -/
def handleLine (decode : String → Except String Request)
    (toolWhitelist : Option (List String))
    (handlers : List (String × HandlerFn)) (undoPush : Except String Unit)
    (line : String) : Option Response :=
  if pyStrip line == "" then none
  else
    match decode line with
    | Except.ok req => some (process_request toolWhitelist handlers undoPush req)
    | Except.error e => some (decodeErrorResponse e)

/-- The inner loop of `_handle_client`: one response (at most) per complete
line already in the buffer, in order. -/
def processLines (decode : String → Except String Request)
    (toolWhitelist : Option (List String))
    (handlers : List (String × HandlerFn)) (undoPush : Except String Unit)
    (ls : List String) : List Response :=
  ls.filterMap (handleLine decode toolWhitelist handlers undoPush)

/-- The loop `while b"\n" in buffer: line, buffer = buffer.split(b"\n", 1)`: the
complete (terminator-delimited) lines of the buffer, and the retained
remainder. -/
def extractLines (buffer : String) : List String × String :=
  let parts := splitChar (Char.ofNat 10) buffer.data
  (parts.dropLast.map String.mk, String.mk (parts.getLast?.getD []))

/-- One pass of `_handle_client` over the accumulated buffer: the responses
written back, in order. -/
def handleClientBuffer (decode : String → Except String Request)
    (toolWhitelist : Option (List String))
    (handlers : List (String × HandlerFn)) (undoPush : Except String Unit)
    (buffer : String) : List Response :=
  processLines decode toolWhitelist handlers undoPush (extractLines buffer).1

/-! ### The external client (`BlenderConnection.send_command`) -/

/-- The client's connection state: `self._reader` / `self._writer` (socket
handles, modelled as opaque numbers; `none` is Python `None`). -/
structure ClientConn where
  reader : Option Nat
  writer : Option Nat
deriving Repr, DecidableEq

/-- The outcome of the write/drain/readline I/O sequence inside the `try`
block of `send_command`: a decoded response, an empty read (peer closed), or
an `OSError`/`ConnectionError` from the socket. -/
inductive NetOutcome where
  | ok (resp : Response)
  | closed
  | ioError (msg : String)

/-- The caller-visible outcome of `send_command`: the result value, a
`RuntimeError` carrying the server's error message, a `ConnectionError`
after dropping the handles, or a propagated connect failure. -/
inductive SendOutcome where
  | success (result : Option Json)
  | failure (msg : String)
  | connectionLost (msg : String)
  | connectFailed

/-- The part of `send_command` after the implicit connect: on a decoded
response, a falsy `success` raises `RuntimeError` with the response's error
(default `"Unknown error from Blender"`) and leaves the handles untouched
(the `except` clause catches only `ConnectionError`/`OSError`); an empty
read or an I/O error resets both handles to `None` and raises
`ConnectionError`. -/
def sendCommandConnected (conn : ClientConn) (io : NetOutcome) :
    SendOutcome × ClientConn :=
  match io with
  | NetOutcome.ok resp =>
      if !resp.success then
        (SendOutcome.failure (resp.error.getD "Unknown error from Blender"), conn)
      else
        (SendOutcome.success resp.result, conn)
  | NetOutcome.closed =>
      (SendOutcome.connectionLost
        "Lost connection to Blender: Blender connection closed",
       { reader := none, writer := none })
  | NetOutcome.ioError msg =>
      (SendOutcome.connectionLost ("Lost connection to Blender: " ++ msg),
       { reader := none, writer := none })

/-- Model of `BlenderConnection.send_command`: if `self._writer` is unset, connect
first (`connectRes` is the outcome of `connect()` — fresh handles, or `none`
when it raises `OSError`, which propagates with the handles still unset). -/
def send_command (conn : ClientConn) (connectRes : Option (Nat × Nat))
    (io : NetOutcome) : SendOutcome × ClientConn :=
  match conn.writer with
  | none =>
      match connectRes with
      | none => (SendOutcome.connectFailed, conn)
      | some fresh =>
          sendCommandConnected { reader := some fresh.1, writer := some fresh.2 } io
  | some _ => sendCommandConnected conn io

/-! ### Scene listing (`CommandHandler._scene_list_objects`) -/

/-- A Blender scene object, as read by `_scene_list_objects`: `obj.name`,
`obj.type` (an upper-case enum string), `list(obj.location)` and
`obj.visible_get()`. -/
structure BObject where
  name : String
  type : String
  location : List Rat
  visible : Bool
deriving Repr, DecidableEq

/-- Python `s.upper()` (ASCII). -/
def pyUpper (s : String) : String := String.mk (s.data.map Char.toUpper)

/-- The `for obj in scene.objects` filter of `_scene_list_objects`: an object
is skipped iff the `type` parameter is truthy (present and non-empty) and
the object's type differs from the upper-cased parameter. -/
def listedObjects (objs : List BObject) (typeFilter : Option String) :
    List BObject :=
  objs.filter (fun obj =>
    match typeFilter with
    | some tf => if tf == "" then true else obj.type == pyUpper tf
    | none => true)

/-- The result entry built for one listed object. -/
def objEntry (obj : BObject) : Json :=
  Json.obj [("name", Json.str obj.name), ("type", Json.str obj.type),
            ("location", Json.arr (obj.location.map Json.num)),
            ("visible", Json.bool obj.visible)]

/-- Model of `CommandHandler._scene_list_objects`: `params.get("type")` is the filter;
the result is `{"objects": [...]}` over the retained objects. -/
def scene_list_objects (objs : List BObject) (params : Params) : Json :=
  Json.obj [("objects",
    Json.arr ((listedObjects objs (getStr params "type")).map objEntry))]

/-! ### Export handlers (`_export_gltf` / `_export_obj` / `_export_fbx`) -/

/-- Python `str(KeyError("filepath"))` — the message when the parameter is absent. -/
def missingFilepathMsg : String := squote ++ "filepath" ++ squote

/-- The glTF extension step: `".glb"` is appended unless the path already
ends with `".glb"` or `".gltf"`. -/
def gltfOutPath (fp : String) : String :=
  if pyEndsWith fp ".glb" || pyEndsWith fp ".gltf" then fp else fp ++ ".glb"

/-- The OBJ extension step: `".obj"` is appended unless already present. -/
def objOutPath (fp : String) : String :=
  if pyEndsWith fp ".obj" then fp else fp ++ ".obj"

/-- The FBX extension step: `".fbx"` is appended unless already present. -/
def fbxOutPath (fp : String) : String :=
  if pyEndsWith fp ".fbx" then fp else fp ++ ".fbx"

/-- Model of `CommandHandler._export_gltf`: read the `filepath` parameter, run the
safe-mode path check on it exactly as supplied, then append `".glb"` unless
the path already ends with `".glb"` or `".gltf"`; the appended path is both
handed to the host export operator and returned. -/
def export_gltf (env : Env) (st : SecConfig) (params : Params) :
    Except String Json × SecConfig :=
  match getStr params "filepath" with
  | none => (Except.error missingFilepathMsg, st)
  | some filepath =>
      match validate_filepath env st filepath with
      | (Except.error e, st') => (Except.error e, st')
      | (Except.ok _, st') =>
          (Except.ok (Json.obj [("filepath", Json.str (gltfOutPath filepath)),
                                ("format", Json.str "glTF")]), st')

/-- Model of `CommandHandler._export_obj`: as `_export_gltf`, with the single suffix
`".obj"` and format label `"OBJ"`. -/
def export_obj (env : Env) (st : SecConfig) (params : Params) :
    Except String Json × SecConfig :=
  match getStr params "filepath" with
  | none => (Except.error missingFilepathMsg, st)
  | some filepath =>
      match validate_filepath env st filepath with
      | (Except.error e, st') => (Except.error e, st')
      | (Except.ok _, st') =>
          (Except.ok (Json.obj [("filepath", Json.str (objOutPath filepath)),
                                ("format", Json.str "OBJ")]), st')

/-- Model of `CommandHandler._export_fbx`: as `_export_gltf`, with the single suffix
`".fbx"` and format label `"FBX"`. -/
def export_fbx (env : Env) (st : SecConfig) (params : Params) :
    Except String Json × SecConfig :=
  match getStr params "filepath" with
  | none => (Except.error missingFilepathMsg, st)
  | some filepath =>
      match validate_filepath env st filepath with
      | (Except.error e, st') => (Except.error e, st')
      | (Except.ok _, st') =>
          (Except.ok (Json.obj [("filepath", Json.str (fbxOutPath filepath)),
                                ("format", Json.str "FBX")]), st')

/-- A registry stub carrying exactly the builtin command names (handler
bodies irrelevant), used to witness registry-shape hypotheses. -/
def builtinStubHandlers : List (String × HandlerFn) :=
  builtinCommandNames.map (fun n => (n, fun _ => Except.ok Json.null))

/-! ## Theorems -/

/-- The envelope always carries the given correlation id. -/
theorem responseOf_id (reqId : Json) (outcome : Except String Json) :
    (responseOf reqId outcome).id = reqId := by
  cases outcome <;> rfl

/-- C1 (code_bug evaluation): with safe mode on and `allowedRoots = ["/project"]`,
the embedded `_validate_filepath` passes `/project/textures/a.png` and rejects
`/etc/passwd` as the claim states, but it also PASSES the sibling directory
path `/project-other/a.png`, because the check is a raw string-prefix test
(`abs_path.startswith("/project")` is true for `/project-other/...`). The
claim (and the spec, which flags segment containment as a correctness
requirement) demands that this path be rejected with a PathDenied error. -/
theorem c1_sibling_prefix_passes_check :
    (validate_filepath ⟨"", "/work"⟩ ⟨true, ["/project"]⟩ "/project/textures/a.png").1 =
      Except.ok "/project/textures/a.png"
    ∧ (validate_filepath ⟨"", "/work"⟩ ⟨true, ["/project"]⟩ "/project-other/a.png").1 =
      Except.ok "/project-other/a.png"
    ∧ (validate_filepath ⟨"", "/work"⟩ ⟨true, ["/project"]⟩ "/etc/passwd").1 =
      Except.error (deniedMsg "/etc/passwd" ["/project"]) := by
  refine ⟨?_, ?_, ?_⟩ <;> rfl

/-- C3 (confirmed): whitelist denial takes precedence over unknown-command.
If a whitelist is configured and the command is absent from it, dispatch
fails with the PermissionDenied message for every registry whatsoever; the
unknown-command failure arises only once the whitelist check passes (command
whitelisted, or no whitelist configured) and the registry lookup misses. -/
theorem c3_whitelist_precedence (wl : List String)
    (handlers : List (String × HandlerFn)) (command : String) (params : Params) :
    (wl.contains command = false →
      handle (some wl) handlers command params =
        Except.error (permissionDeniedMsg command))
    ∧ (wl.contains command = true → lookupHandler handlers command = none →
      handle (some wl) handlers command params =
        Except.error (unknownCommandMsg command))
    ∧ (lookupHandler handlers command = none →
      handle none handlers command params =
        Except.error (unknownCommandMsg command)) := by
  refine ⟨fun h => ?_, fun h hl => ?_, fun hl => ?_⟩
  · have h' : command ∉ wl := by simpa using h
    simp [handle, h']
  · have h' : command ∈ wl := by simpa using h
    simp [handle, h', hl]
  · simp [handle, hl]

/-- Witness for `c3_whitelist_precedence` at concrete inputs: a whitelist
without `export.gltf` denies it even on an empty registry; a whitelisted but
unregistered command is unknown; with no whitelist an unregistered command
is unknown. -/
theorem c3_whitelist_precedence_witness :
    handle (some ["scene.get_info"]) [] "export.gltf" [] =
      Except.error (permissionDeniedMsg "export.gltf")
    ∧ handle (some ["nope.cmd"]) [] "nope.cmd" [] =
      Except.error (unknownCommandMsg "nope.cmd")
    ∧ handle none [] "nope.cmd" [] =
      Except.error (unknownCommandMsg "nope.cmd") :=
  ⟨(c3_whitelist_precedence ["scene.get_info"] [] "export.gltf" []).1 (by decide),
   (c3_whitelist_precedence ["nope.cmd"] [] "nope.cmd" []).2.1 (by decide) rfl,
   (c3_whitelist_precedence ["nope.cmd"] [] "nope.cmd" []).2.2 rfl⟩

/-- C2 (counterexample): the claim says a checkpoint failure does not block
the handler — the handler is still invoked and its outcome determines the
response. In the code, `bpy.ops.ed.undo_push` is called inside the same
`try` block as the handler, so when it raises, the `except` clause answers
with the checkpoint's error and the handler never runs: here the registered
handler for the mutation command `object.delete` would succeed, yet the
response is `success = false` carrying the checkpoint error. -/
theorem c2_checkpoint_failure_blocks_handler :
    process_request none
        [("object.delete", fun _ => Except.ok (Json.str "deleted"))]
        (Except.error "undo push failed")
        { id := Json.str "1", command := some "object.delete", params := some [] } =
      { id := Json.str "1", success := false, result := none,
        error := some "undo push failed" } := by
  rfl

/-- C2 (amended): for every request whose command is in the fixed mutation
set, the dispatcher requests the checkpoint before invoking the handler, but
the checkpoint is not best-effort: when the checkpoint request fails, its
exception is caught by the dispatcher's catch-all and the response is the
checkpoint's error — the handler is not invoked (the response is the same
for every registry); only when the checkpoint succeeds does the handler run,
and then its outcome determines the response. -/
theorem c2_checkpoint_order_amended (toolWhitelist : Option (List String))
    (handlers : List (String × HandlerFn)) (req : Request) (e : String)
    (hm : MUTATION_COMMANDS.contains (req.command.getD "") = true) :
    process_request toolWhitelist handlers (Except.error e) req =
      { id := req.id, success := false, result := none, error := some e }
    ∧ process_request toolWhitelist handlers (Except.ok ()) req =
      responseOf req.id
        (handle toolWhitelist handlers (req.command.getD "") (req.params.getD [])) := by
  have hm' : req.command.getD "" ∈ MUTATION_COMMANDS := by simpa using hm
  constructor
  · simp [process_request, hm', responseOf]
  · simp [process_request, hm']

/-- Witness for `c2_checkpoint_order_amended`: the mutation command
`object.delete` with a failing checkpoint yields the checkpoint's error. -/
theorem c2_checkpoint_order_amended_witness :
    process_request none [] (Except.error "undo push failed")
        { id := Json.null, command := some "object.delete", params := none } =
      { id := Json.null, success := false, result := none,
        error := some "undo push failed" } :=
  (c2_checkpoint_order_amended none []
    { id := Json.null, command := some "object.delete", params := none }
    "undo push failed" (by decide)).1

/-- C5 (counterexample): the claim's clause "only undecodable input yields a
response with id null" fails — the well-formed (JSON-decodable) request
`{"id": null, "command": "scene.get_info", "params": {}}` is processed by
`_process_request` (not by the decode-error path) and its response also has
id null, because `request.get("id")` is `None` for a null (or absent) id and
is echoed as-is. -/
theorem c5_wellformed_null_id_counterexample :
    (process_request none [] (Except.ok ())
        { id := Json.null, command := some "scene.get_info", params := some [] }).id =
      Json.null := by
  rfl

/-- C5 (amended): for every well-formed request the response's id equals the
request's id verbatim, whether dispatch succeeds or fails (for any registry,
whitelist and checkpoint outcome); undecodable input always yields a
response with id null — but so does a well-formed request whose id is null
or absent, so undecodable input is not the only source of null ids. -/
theorem c5_id_echo_amended (toolWhitelist : Option (List String))
    (handlers : List (String × HandlerFn)) (undoPush : Except String Unit)
    (req : Request) (e : String) :
    (process_request toolWhitelist handlers undoPush req).id = req.id
    ∧ (decodeErrorResponse e).id = Json.null := by
  exact ⟨responseOf_id req.id _, rfl⟩

/-- C4 (confirmed): in the per-client loop, a complete buffered line that is
not decodable JSON (and not blank) produces exactly one response — id null,
success false, error describing the decode failure — and the loop then
continues with the remaining buffered lines: the responses for the lines
after the malformed one are produced exactly as they would be on their own.
Neither the stream nor the connection is aborted by the decode failure. -/
theorem c4_malformed_frame_recovery (decode : String → Except String Request)
    (toolWhitelist : Option (List String))
    (handlers : List (String × HandlerFn)) (undoPush : Except String Unit)
    (pre post : List String) (bad : String) (e : String)
    (hd : decode bad = Except.error e) (hb : (pyStrip bad == "") = false) :
    processLines decode toolWhitelist handlers undoPush (pre ++ bad :: post) =
      processLines decode toolWhitelist handlers undoPush pre ++
        decodeErrorResponse e ::
          processLines decode toolWhitelist handlers undoPush post := by
  unfold processLines
  rw [List.filterMap_append, List.filterMap_cons]
  simp [handleLine, hb, hd]

/-- Witness for `c4_malformed_frame_recovery`: a buffer of two complete
undecodable lines yields the decode-error response for the first and still
processes the second. -/
theorem c4_malformed_frame_recovery_witness :
    processLines (fun _ => Except.error "oops") none [] (Except.ok ())
        ([] ++ "not json" :: ["also bad"]) =
      processLines (fun _ => Except.error "oops") none [] (Except.ok ()) [] ++
        decodeErrorResponse "oops" ::
          processLines (fun _ => Except.error "oops") none [] (Except.ok ())
            ["also bad"] :=
  c4_malformed_frame_recovery (fun _ => Except.error "oops") none []
    (Except.ok ()) [] ["also bad"] "not json" "oops" rfl (by decide)

/-- The state transition of `_validate_filepath` in one equation: the
allowed-roots list is seeded with the single default root exactly when safe
mode is on and the list is empty, and is untouched otherwise. -/
theorem validate_filepath_state (env : Env) (st : SecConfig) (fp : String) :
    (validate_filepath env st fp).2 =
      if st.safeMode && st.allowedPaths.isEmpty then
        { st with allowedPaths := [blendDirOf env] }
      else st := by
  obtain ⟨sm, ap⟩ := st
  cases sm
  · rfl
  · cases ap
    · simp [validate_filepath]
      split <;> rfl
    · simp [validate_filepath]
      split <;> rfl

/-- C6 (confirmed): with safe mode on, a path check on an empty allowed-roots
list appends exactly one default root — the blend-file directory, or the
working directory when no file is open (`blendDirOf`) — while a check on a
non-empty list leaves the state untouched; consequently after any first
check the list is non-empty and every subsequent check leaves it exactly as
it is: the seeding happens at most once and is never re-evaluated. -/
theorem c6_lazy_seed_once (env : Env) (st : SecConfig) (fp : String)
    (hs : st.safeMode = true) :
    (st.allowedPaths = [] →
      ((validate_filepath env st fp).2).allowedPaths = [blendDirOf env])
    ∧ (st.allowedPaths ≠ [] → (validate_filepath env st fp).2 = st)
    ∧ ((validate_filepath env st fp).2).allowedPaths ≠ []
    ∧ ∀ fp₂, (validate_filepath env (validate_filepath env st fp).2 fp₂).2 =
        (validate_filepath env st fp).2 := by
  have hstate := validate_filepath_state env st fp
  refine ⟨fun hnil => ?_, fun hne => ?_, ?_, ?_⟩
  · rw [hstate, hs, hnil]; rfl
  · rw [hstate]
    have : st.allowedPaths.isEmpty = false := by
      cases h : st.allowedPaths with
      | nil => exact absurd h hne
      | cons a l => rfl
    simp [this]
  · rw [hstate]
    cases he : st.allowedPaths.isEmpty
    · have : st.allowedPaths ≠ [] := by
        intro h; rw [h] at he; simp at he
      simpa [he] using this
    · simp [hs, he]
  · intro fp₂
    rw [validate_filepath_state env ((validate_filepath env st fp).2) fp₂]
    have hne : ((validate_filepath env st fp).2).allowedPaths ≠ [] := by
      rw [hstate]
      cases he : st.allowedPaths.isEmpty
      · have : st.allowedPaths ≠ [] := by
          intro h; rw [h] at he; simp at he
        simpa [he] using this
      · simp [hs, he]
    have : ((validate_filepath env st fp).2).allowedPaths.isEmpty = false := by
      cases h : ((validate_filepath env st fp).2).allowedPaths with
      | nil => exact absurd h hne
      | cons a l => rfl
    simp [this]

/-- Witness for `c6_lazy_seed_once`: with safe mode on, no allowed roots and
no open blend file, one check seeds exactly the working directory and a
second check changes nothing. -/
theorem c6_lazy_seed_once_witness :
    ((validate_filepath ⟨"", "/work"⟩ ⟨true, []⟩ "/etc/passwd").2).allowedPaths =
      [blendDirOf ⟨"", "/work"⟩]
    ∧ ((validate_filepath ⟨"", "/work"⟩ ⟨true, []⟩ "/etc/passwd").2).allowedPaths ≠ []
    ∧ (validate_filepath ⟨"", "/work"⟩
        ((validate_filepath ⟨"", "/work"⟩ ⟨true, []⟩ "/etc/passwd").2) "/a.png").2 =
      (validate_filepath ⟨"", "/work"⟩ ⟨true, []⟩ "/etc/passwd").2 :=
  ⟨(c6_lazy_seed_once ⟨"", "/work"⟩ ⟨true, []⟩ "/etc/passwd" rfl).1 rfl,
   (c6_lazy_seed_once ⟨"", "/work"⟩ ⟨true, []⟩ "/etc/passwd" rfl).2.2.1,
   (c6_lazy_seed_once ⟨"", "/work"⟩ ⟨true, []⟩ "/etc/passwd" rfl).2.2.2 "/a.png"⟩

/-- C7 (confirmed): with the connection established, a response whose
`success` is false makes `send_command` fail with the error message taken
from the response and leaves the connection state exactly as it was (both
handles remain set, so the next call reuses them); an I/O failure or an
empty read is the only outcome that drops both handles, and a later call on
the dropped state performs the implicit reconnect. -/
theorem c7_error_atomicity (conn : ClientConn) (connectRes : Option (Nat × Nat))
    (resp : Response) (m : String) (hw : conn.writer.isSome = true) :
    (resp.success = false →
      send_command conn connectRes (NetOutcome.ok resp) =
        (SendOutcome.failure (resp.error.getD "Unknown error from Blender"), conn))
    ∧ send_command conn connectRes (NetOutcome.ioError m) =
      (SendOutcome.connectionLost ("Lost connection to Blender: " ++ m),
       { reader := none, writer := none })
    ∧ send_command conn connectRes NetOutcome.closed =
      (SendOutcome.connectionLost
        "Lost connection to Blender: Blender connection closed",
       { reader := none, writer := none })
    ∧ ∀ (fresh : Nat × Nat) (io : NetOutcome),
      send_command { reader := none, writer := none } (some fresh) io =
        sendCommandConnected { reader := some fresh.1, writer := some fresh.2 } io := by
  obtain ⟨w, hw'⟩ := Option.isSome_iff_exists.mp hw
  refine ⟨fun hs => ?_, ?_, ?_, fun fresh io => rfl⟩
  · simp [send_command, hw', sendCommandConnected, hs]
  · simp [send_command, hw', sendCommandConnected]
  · simp [send_command, hw', sendCommandConnected]

/-- Witness for `c7_error_atomicity`: a `success:false` response on a live
connection surfaces the server's error text and keeps both handles. -/
theorem c7_error_atomicity_witness :
    send_command ⟨some 1, some 2⟩ none
        (NetOutcome.ok ⟨Json.null, false, none, some "Object not found"⟩) =
      (SendOutcome.failure "Object not found", ⟨some 1, some 2⟩) :=
  (c7_error_atomicity ⟨some 1, some 2⟩ none
    ⟨Json.null, false, none, some "Object not found"⟩ "m" rfl).1 rfl

/-- C8 (confirmed): a well-formed request object lacking fields is still
answered with a normal envelope: with no whitelist configured, a missing
`command` defaults to the empty string, which is not among the registered
names, so the response is `success:false` with the unknown-command error
(for any checkpoint outcome, since `""` is not a mutation command); the
response id echoes the request id (`Json.null` when the id is missing);
and missing `params` are processed exactly like an empty mapping. -/
theorem c8_missing_field_defaults (handlers : List (String × HandlerFn))
    (hk : handlers.map Prod.fst = builtinCommandNames)
    (undoPush : Except String Unit) (idv : Json) (paramsv : Option Params) :
    process_request none handlers undoPush
        { id := idv, command := none, params := paramsv } =
      { id := idv, success := false, result := none,
        error := some (unknownCommandMsg "") }
    ∧ ∀ (toolWhitelist : Option (List String)) (req : Request),
      process_request toolWhitelist handlers undoPush { req with params := none } =
        process_request toolWhitelist handlers undoPush { req with params := some [] } := by
  have hnone : lookupHandler handlers "" = none := by
    unfold lookupHandler
    have hfind : handlers.find? (fun kv => kv.1 == "") = none := by
      rw [List.find?_eq_none]
      intro kv hmem
      have hmemN : kv.1 ∈ builtinCommandNames :=
        hk ▸ List.mem_map_of_mem Prod.fst hmem
      have hne : ∀ s ∈ builtinCommandNames, (s == "") = false := by decide
      simp [hne kv.1 hmemN]
    rw [hfind]; rfl
  have hm : MUTATION_COMMANDS.contains "" = false := by decide
  constructor
  · have hm' : ¬ ("" ∈ MUTATION_COMMANDS) := by simpa using hm
    simp [process_request, handle, responseOf, hnone, hm']
  · intro toolWhitelist req
    rfl

/-- Witness for `c8_missing_field_defaults`: the builtin-named registry stub
satisfies the registry-shape hypothesis, and the empty request object is
answered with the unknown-command error envelope and a null id. -/
theorem c8_missing_field_defaults_witness :
    builtinStubHandlers.map Prod.fst = builtinCommandNames
    ∧ process_request none builtinStubHandlers (Except.ok ())
        { id := Json.null, command := none, params := none } =
      { id := Json.null, success := false, result := none,
        error := some (unknownCommandMsg "") } :=
  ⟨rfl, (c8_missing_field_defaults builtinStubHandlers rfl (Except.ok ())
    Json.null none).1⟩

/-- C9 (confirmed): in `scene.list_objects`, a non-empty `type` parameter
keeps exactly the objects whose type equals the upper-cased parameter; an
absent or empty `type` parameter is falsy and disables filtering, so every
scene object is listed (`scene_list_objects` maps `objEntry` over exactly
this list). -/
theorem c9_type_filter (objs : List BObject) (tf : String) (obj : BObject)
    (hne : tf ≠ "") :
    (obj ∈ listedObjects objs (some tf) ↔ obj ∈ objs ∧ obj.type = pyUpper tf)
    ∧ listedObjects objs none = objs
    ∧ listedObjects objs (some "") = objs := by
  have hbeq : (tf == "") = false := by simpa using hne
  refine ⟨?_, ?_, ?_⟩
  · simp [listedObjects, List.mem_filter, hbeq]
  · simp [listedObjects]
  · simp [listedObjects]

/-- Witness for `c9_type_filter` on a two-object scene: filtering by `"mesh"`
retains the MESH object iff its type is `"MESH"`, and the absent/empty filter
retains everything. -/
theorem c9_type_filter_witness :
    ((⟨"Cube", "MESH", [], true⟩ : BObject) ∈
        listedObjects [⟨"Cube", "MESH", [], true⟩, ⟨"Camera", "CAMERA", [], true⟩]
          (some "mesh") ↔
      (⟨"Cube", "MESH", [], true⟩ : BObject) ∈
        [(⟨"Cube", "MESH", [], true⟩ : BObject), ⟨"Camera", "CAMERA", [], true⟩] ∧
      (⟨"Cube", "MESH", [], true⟩ : BObject).type = pyUpper "mesh")
    ∧ listedObjects [⟨"Cube", "MESH", [], true⟩, ⟨"Camera", "CAMERA", [], true⟩] none =
      [⟨"Cube", "MESH", [], true⟩, ⟨"Camera", "CAMERA", [], true⟩]
    ∧ listedObjects [⟨"Cube", "MESH", [], true⟩, ⟨"Camera", "CAMERA", [], true⟩]
        (some "") =
      [⟨"Cube", "MESH", [], true⟩, ⟨"Camera", "CAMERA", [], true⟩] :=
  c9_type_filter [⟨"Cube", "MESH", [], true⟩, ⟨"Camera", "CAMERA", [], true⟩]
    "mesh" ⟨"Cube", "MESH", [], true⟩ (by decide)

/-- Appending a suffix makes the suffix check succeed. -/
theorem pyEndsWith_append (s t : String) : pyEndsWith (s ++ t) t = true := by
  unfold pyEndsWith
  rw [String.data_append]
  exact List.isSuffixOf_iff_suffix.mpr (List.suffix_append s.data t.data)

/-- Appending a non-empty suffix changes the string. -/
theorem append_ext_ne (s t : String) (h : 0 < t.length) : s ++ t ≠ s := by
  intro he
  have hl := congrArg String.length he
  rw [String.length_append] at hl
  omega

/-- C10 (counterexample): for `export.gltf` with supplied filepath
`/project/model.gltf` (safe mode off, so the path check passes), the code
appends nothing — the suffix check accepts `".gltf"` as well — and returns
`/project/model.gltf`, which does not end with the format extension `".glb"`
named by the claim; the claim's "appended when the supplied filepath does
not already end with it" and "the returned filepath therefore always ends
with the format's extension" are both false at this input. -/
theorem c10_gltf_extension_counterexample :
    export_gltf ⟨"", "/work"⟩ ⟨false, []⟩
        [("filepath", Json.str "/project/model.gltf")] =
      (Except.ok (Json.obj [("filepath", Json.str "/project/model.gltf"),
                            ("format", Json.str "glTF")]), ⟨false, []⟩)
    ∧ pyEndsWith "/project/model.gltf" ".glb" = false := by
  exact ⟨rfl, by decide⟩

/-- C10 (amended): each exporter runs the safe-mode path check on the
filepath exactly as supplied, propagating a denial (with the state after the
check) before any extension handling; only on success is the extension step
applied — for `export.obj`/`export.fbx` the extension is appended iff the
supplied path does not already end with it, and for `export.gltf` the suffix
check accepts both `".glb"` and `".gltf"` and appends `".glb"` otherwise.
The returned filepath (which is also the path handed to the host export)
therefore ends with `".obj"` / `".fbx"` / one of `".glb"` or `".gltf"`
respectively, and whenever appending occurred it differs from the string
that was checked. -/
theorem c10_export_extension_amended (env : Env) (st : SecConfig)
    (params : Params) (fp e : String)
    (hfp : getStr params "filepath" = some fp) :
    ((validate_filepath env st fp).1 = Except.error e →
      export_gltf env st params = (Except.error e, (validate_filepath env st fp).2)
      ∧ export_obj env st params = (Except.error e, (validate_filepath env st fp).2)
      ∧ export_fbx env st params = (Except.error e, (validate_filepath env st fp).2))
    ∧ ((validate_filepath env st fp).1 = Except.ok fp →
      export_gltf env st params =
        (Except.ok (Json.obj [("filepath", Json.str (gltfOutPath fp)),
                              ("format", Json.str "glTF")]),
         (validate_filepath env st fp).2)
      ∧ export_obj env st params =
        (Except.ok (Json.obj [("filepath", Json.str (objOutPath fp)),
                              ("format", Json.str "OBJ")]),
         (validate_filepath env st fp).2)
      ∧ export_fbx env st params =
        (Except.ok (Json.obj [("filepath", Json.str (fbxOutPath fp)),
                              ("format", Json.str "FBX")]),
         (validate_filepath env st fp).2))
    ∧ (pyEndsWith (gltfOutPath fp) ".glb" || pyEndsWith (gltfOutPath fp) ".gltf") = true
    ∧ pyEndsWith (objOutPath fp) ".obj" = true
    ∧ pyEndsWith (fbxOutPath fp) ".fbx" = true
    ∧ ((pyEndsWith fp ".glb" || pyEndsWith fp ".gltf") = false → gltfOutPath fp ≠ fp)
    ∧ (pyEndsWith fp ".obj" = false → objOutPath fp ≠ fp)
    ∧ (pyEndsWith fp ".fbx" = false → fbxOutPath fp ≠ fp) := by
  rcases hval : validate_filepath env st fp with ⟨r, st2⟩
  refine ⟨fun hr => ?_, fun hr => ?_, ?_, ?_, ?_, ?_, ?_, ?_⟩
  · have hr' : r = Except.error e := hr
    subst hr'
    refine ⟨?_, ?_, ?_⟩ <;>
      simp [export_gltf, export_obj, export_fbx, hfp, hval]
  · have hr' : r = Except.ok fp := hr
    subst hr'
    refine ⟨?_, ?_, ?_⟩ <;>
      simp [export_gltf, export_obj, export_fbx, hfp, hval]
  · unfold gltfOutPath
    split <;> simp_all [pyEndsWith_append]
  · unfold objOutPath
    split <;> simp_all [pyEndsWith_append]
  · unfold fbxOutPath
    split <;> simp_all [pyEndsWith_append]
  · intro h
    unfold gltfOutPath
    rw [h, if_neg (by simp)]
    exact append_ext_ne fp ".glb" (by decide)
  · intro h
    unfold objOutPath
    rw [h, if_neg (by simp)]
    exact append_ext_ne fp ".obj" (by decide)
  · intro h
    unfold fbxOutPath
    rw [h, if_neg (by simp)]
    exact append_ext_ne fp ".fbx" (by decide)

/-- Witness for `c10_export_extension_amended`: with safe mode off the path
check passes, and `export.obj` on `/work/mesh` appends `".obj"`. -/
theorem c10_export_extension_amended_witness :
    export_obj ⟨"", "/work"⟩ ⟨false, []⟩ [("filepath", Json.str "/work/mesh")] =
      (Except.ok (Json.obj [("filepath", Json.str (objOutPath "/work/mesh")),
                            ("format", Json.str "OBJ")]),
       (validate_filepath ⟨"", "/work"⟩ ⟨false, []⟩ "/work/mesh").2) :=
  ((c10_export_extension_amended ⟨"", "/work"⟩ ⟨false, []⟩
    [("filepath", Json.str "/work/mesh")] "/work/mesh" "e" rfl).2.1 rfl).2.1
